import Mathlib

/-!
Verification of the SnapPlanner component (src/src/prpy/planning/snap.py).

SnapPlanner orchestrates calls into an external kinematics/collision engine
(OpenRAVE) and the prpy utility layer.  The embedding below follows the
source of `SnapPlanner._Snap`, `SnapPlanner.PlanToConfiguration` and
`SnapPlanner.PlanToEndEffectorPose` line by line.  Parts of the repository
that the source calls but that are absent from src/ (prpy.util's
`CheckJointLimits` and `GetLinearCollisionCheckPts`, prpy.collision's
`SimpleRobotCollisionChecker`) are modelled from the spec, each marked with
`Modelled from the spec:` in its doc comment.

Configurations are lists of rationals (joint values of the active DOFs).
The external engine's collision and IK queries are parameters of the
functions (fields of `CollisionModel` and `IKModel`): the planner only
branches on their boolean / optional answers, exactly as the Python code
does.  The mutable collision-checker option (toggled by
`CollisionOptionsStateSaver`) is threaded as explicit state, and every
joint-limit check and collision check is recorded in an event trace so
that ordering ("before any collision check") is provable.
-/

namespace SnapPlannerModel

/-- A robot as seen by `_Snap`: its current active-DOF values and its
joint limits.  The planner operates on a private clone, so this is the
whole robot state the code reads. -/
structure Robot where
  activeDOFValues : List ℚ
  lowerLimits : List ℚ
  upperLimits : List ℚ
deriving DecidableEq

/-- The external engine's collision oracle: environment collision and
self collision of the robot placed at a given configuration. -/
structure CollisionModel where
  envCollision : List ℚ → Bool
  selfCollision : List ℚ → Bool

/-- An end-effector pose, opaque to this code: it is only handed to the
external IK solver. -/
abbrev Pose := Nat

/-- The external engine's IK queries as used by `PlanToEndEffectorPose`:
`findIKSolution` is `FindIKSolution` under the `CheckEnvCollisions`
filter, `findIKSolutions` is `FindIKSolutions` under the
`IgnoreSelfCollisions` filter. -/
structure IKModel where
  findIKSolution : Pose → Option (List ℚ)
  findIKSolutions : Pose → List (List ℚ)

/-- Trajectory tags set by `SetTrajectoryTags` on success
(snap.py lines 195-199). -/
inductive Tag where
  | smooth
  | deterministicTrajectory
  | deterministicEndpoint
deriving DecidableEq

/-- A trajectory: its waypoints (each a configuration of the active DOFs,
as inserted through the configuration specification) and its tags. -/
structure Traj where
  waypoints : List (List ℚ)
  tags : List (Tag × Bool)
deriving DecidableEq

/-- The typed failures raised by the planner: `JointLimitError` from
`CheckJointLimits`, `CollisionPlanningError` and
`SelfCollisionPlanningError` (each carrying the offending configuration,
standing for the collision report), and the generic `PlanningError`
with its message.  Each carries its `deterministic` flag. -/
inductive PlanningFailure where
  | jointLimitViolation (flag : Bool)
  | collision (q : List ℚ) (flag : Bool)
  | selfCollision (q : List ℚ) (flag : Bool)
  | planningError (msg : String) (flag : Bool)
deriving DecidableEq

/-- The `deterministic` flag carried by a failure. -/
def PlanningFailure.deterministicFlag : PlanningFailure → Bool
  | .jointLimitViolation f => f
  | .collision _ f => f
  | .selfCollision _ f => f
  | .planningError _ f => f

/-- The message of the generic `PlanningError` raised at snap.py
lines 123-124. -/
def noIKSolutionMessage : String := "There is no IK solution at the goal pose."

/-- The mutable state of the environment's collision checker: its
collision-options value, toggled by `CollisionOptionsStateSaver`. -/
structure EnvState where
  collisionOptions : Nat
deriving DecidableEq

/-- The value `CollisionOptions.ActiveDOFs` of the external engine (the value is
never inspected, only stored and compared). -/
def collisionOptionsActiveDOFs : Nat := 16

/-- Events recorded along an invocation: each joint-limit validation and
each collision check of a sampled configuration (with the collision
options in force when the check ran). -/
inductive Ev where
  | jointLimitCheck (q : List ℚ)
  | collisionCheck (opts : Nat) (q : List ℚ)
deriving DecidableEq

deriving instance DecidableEq for Except

/-- The outcome of one invocation: the returned trajectory or the raised
failure, the final collision-checker state, and the event trace. -/
structure SnapOutcome where
  result : Except PlanningFailure Traj
  state : EnvState
  trace : List Ev
deriving DecidableEq

/-- Elementwise closeness of `numpy.allclose` with numpy's defaults
(`atol = 1e-8`, `rtol = 1e-5`): `|a - b| ≤ atol + rtol * |b|`, over
arrays of equal shape (snap.py line 157). -/
def allclose (a b : List ℚ) : Bool :=
  a.length == b.length &&
    (List.zipWith
      (fun x y =>
        decide (|x - y| ≤ (1 : ℚ) / 100000000 + (1 : ℚ) / 100000 * |y|))
      a b).all id

/-- A configuration lies within the robot's joint limits. -/
def withinJointLimits (robot : Robot) (q : List ℚ) : Bool :=
  (List.zipWith (fun x lo => decide (lo ≤ x)) q robot.lowerLimits).all id &&
    (List.zipWith (fun x hi => decide (x ≤ hi)) q robot.upperLimits).all id

/-- Modelled from the spec: `CheckJointLimits` from `prpy.util` is absent
from src/.  The spec's joint-limit validator: "given a configuration,
raises on violation"; the call sites pass `deterministic=True`
(snap.py lines 144, 156). -/
def checkJointLimits (robot : Robot) (q : List ℚ) : Except PlanningFailure Unit :=
  if withinJointLimits robot q then Except.ok ()
  else Except.error (PlanningFailure.jointLimitViolation true)

/-- Modelled from the spec: `SimpleRobotCollisionChecker.VerifyCollisionFree`
from `prpy.collision` is absent from src/.  Per the spec, on the first
collision it raises a typed, deterministic failure carrying the collision
report, distinguishing environment collision from self collision. -/
def verifyCollisionFree (cm : CollisionModel) (q : List ℚ) :
    Except PlanningFailure Unit :=
  if cm.envCollision q then Except.error (PlanningFailure.collision q true)
  else if cm.selfCollision q then
    Except.error (PlanningFailure.selfCollision q true)
  else Except.ok ()

/-- Base-2 Van der Corput radical inverse, the low-discrepancy sequence
behind `VanDerCorputSampleGenerator`. -/
def vdc : Nat → ℚ
  | 0 => 0
  | n + 1 => (((n + 1) % 2 : Nat) + vdc ((n + 1) / 2)) / 2

/-- Linear interpolation between two configurations. -/
def lerp (start goal : List ℚ) (t : ℚ) : List ℚ :=
  List.zipWith (fun s g => s + t * (g - s)) start goal

/-- Modelled from the spec: `GetLinearCollisionCheckPts` with
`VanDerCorputSampleGenerator` from `prpy.util` is absent from src/.
Per the spec it deterministically samples configurations along the
straight line, ordered by the Van der Corput sequence, at a configurable
resolution `res`; per the source's comment (snap.py lines 164-166), when
the trajectory has a single waypoint only the start configuration is
checked. -/
def getLinearCollisionCheckPts (start goal : List ℚ) (numWaypoints res : Nat) :
    List (ℚ × List ℚ) :=
  if numWaypoints ≤ 1 then
    [((0 : ℚ), start)]
  else
    ((0 : ℚ) :: (1 : ℚ) :: (List.range res).map (fun i => vdc (i + 1))).map
      (fun t => (t, lerp start goal t))

/-- The collision-check loop of `_Snap` (snap.py lines 187-193): for each
sampled configuration, set the joint positions and verify it is collision
free, aborting on the first failure.  Returns the loop's outcome and the
collision checks it performed, each recorded with the collision options
in force. -/
def checkLoop (cm : CollisionModel) (opts : Nat) :
    List (ℚ × List ℚ) → Except PlanningFailure Unit × List Ev
  | [] => (Except.ok (), [])
  | (_, q) :: rest =>
    match verifyCollisionFree cm q with
    | Except.error e => (Except.error e, [Ev.collisionCheck opts q])
    | Except.ok () =>
      let (r, tr) := checkLoop cm opts rest
      (r, Ev.collisionCheck opts q :: tr)

/-- The waypoints of the trajectory built by `_Snap` (snap.py lines
146-161): the start waypoint, then the goal waypoint unless the goal is
numerically identical to the start under `numpy.allclose`. -/
def snapWaypoints (start goal : List ℚ) : List (List ℚ) :=
  if allclose start goal then [start] else [start, goal]

/-- The body of `_Snap` after both joint-limit checks have passed
(snap.py lines 163-201): sample the line, run the collision-check loop
inside `CollisionOptionsStateSaver` (options set to `ActiveDOFs`,
restored on every exit path), and on success tag the trajectory as
smooth and deterministic. -/
def snapChecked (robot : Robot) (cm : CollisionModel) (goal : List ℚ)
    (res : Nat) (st : EnvState) : SnapOutcome :=
  let start := robot.activeDOFValues
  let waypoints := snapWaypoints start goal
  let checks := getLinearCollisionCheckPts start goal waypoints.length res
  let saved := st.collisionOptions
  let loopOut := checkLoop cm collisionOptionsActiveDOFs checks
  let trace :=
    [Ev.jointLimitCheck start, Ev.jointLimitCheck goal] ++ loopOut.2
  match loopOut.1 with
  | Except.error e => ⟨Except.error e, ⟨saved⟩, trace⟩
  | Except.ok () =>
    ⟨Except.ok
        ⟨waypoints,
         [(Tag.smooth, true), (Tag.deterministicTrajectory, true),
          (Tag.deterministicEndpoint, true)]⟩,
     ⟨saved⟩, trace⟩

/-- The planner method `SnapPlanner._Snap` (snap.py lines 128-201).  Reads the start
configuration, validates the start against joint limits (before the
start waypoint is inserted), then validates the goal (before the goal
waypoint is inserted), then runs `snapChecked`. -/
def snap (robot : Robot) (cm : CollisionModel) (goal : List ℚ) (res : Nat)
    (st : EnvState) : SnapOutcome :=
  match checkJointLimits robot robot.activeDOFValues with
  | Except.error e =>
    ⟨Except.error e, st, [Ev.jointLimitCheck robot.activeDOFValues]⟩
  | Except.ok () =>
    match checkJointLimits robot goal with
    | Except.error e =>
      ⟨Except.error e, st,
       [Ev.jointLimitCheck robot.activeDOFValues, Ev.jointLimitCheck goal]⟩
    | Except.ok () => snapChecked robot cm goal res st

/-- The planner method `SnapPlanner.PlanToConfiguration` (snap.py lines 63-74): delegates to
`_Snap`. -/
def planToConfiguration (robot : Robot) (cm : CollisionModel) (goal : List ℚ)
    (res : Nat) (st : EnvState) : SnapOutcome :=
  snap robot cm goal res st

/-- The diagnostic probe of `PlanToEndEffectorPose` (snap.py lines
115-124): walk the IK solutions found while ignoring self-collisions; for
each, check environment collision first, then self collision, raising the
corresponding error on the first hit; if none collides, raise the generic
no-IK-solution `PlanningError`.  All three failures carry
`deterministic=True`. -/
def probeIKSolutions (cm : CollisionModel) : List (List ℚ) → PlanningFailure
  | [] => PlanningFailure.planningError noIKSolutionMessage true
  | q :: rest =>
    if cm.envCollision q then PlanningFailure.collision q true
    else if cm.selfCollision q then PlanningFailure.selfCollision q true
    else probeIKSolutions cm rest

/-- The planner method `SnapPlanner.PlanToEndEffectorPose` (snap.py lines 76-126): query one
IK solution under the environment-collision filter; if none, run the
diagnostic probe and raise its failure; otherwise snap to the found
configuration. -/
def planToEndEffectorPose (robot : Robot) (cm : CollisionModel) (ik : IKModel)
    (pose : Pose) (res : Nat) (st : EnvState) : SnapOutcome :=
  match ik.findIKSolution pose with
  | none =>
    ⟨Except.error (probeIKSolutions cm (ik.findIKSolutions pose)), st, []⟩
  | some ikSolution => snap robot cm ikSolution res st

/-- The failure (if any) of a result carries `deterministic=true`. -/
def failureDeterministic (r : Except PlanningFailure Traj) : Bool :=
  match r with
  | Except.error e => e.deterministicFlag
  | Except.ok _ => true

/-- Every collision check recorded in a trace ran with the collision
options set to `ActiveDOFs`. -/
def collisionChecksScoped (tr : List Ev) : Bool :=
  tr.all fun e =>
    match e with
    | Ev.collisionCheck opts _ => opts == collisionOptionsActiveDOFs
    | Ev.jointLimitCheck _ => true

/-- A trace contains no collision-check event. -/
def noCollisionCheck (tr : List Ev) : Bool :=
  tr.all fun e =>
    match e with
    | Ev.collisionCheck _ _ => false
    | Ev.jointLimitCheck _ => true

/-! ### Concrete instances used to evaluate the model -/

/-- A one-DOF robot at configuration `[0]` with joint limits `[-10, 10]`. -/
def robotW : Robot := ⟨[0], [-10], [10]⟩

/-- A collision model in which no configuration collides. -/
def cmFree : CollisionModel := ⟨fun _ => false, fun _ => false⟩

/-- A collision model in which every configuration is in environment
collision. -/
def cmEnvAll : CollisionModel := ⟨fun _ => true, fun _ => false⟩

/-- A collision model in which every configuration is in self collision
but never in environment collision. -/
def cmSelfAll : CollisionModel := ⟨fun _ => false, fun _ => true⟩

/-- A collision model in which every configuration is in both
environment and self collision. -/
def cmBothAll : CollisionModel := ⟨fun _ => true, fun _ => true⟩

/-- An initial collision-checker state with options distinct from
`ActiveDOFs`. -/
def stW : EnvState := ⟨0⟩

/-- The trajectory `snap` returns on `robotW` with goal `[1]` under
`cmFree`. -/
def trajW : Traj :=
  ⟨[[0], [1]],
   [(Tag.smooth, true), (Tag.deterministicTrajectory, true),
    (Tag.deterministicEndpoint, true)]⟩

/-- An IK model with no solution under either filter. -/
def ikNone : IKModel := ⟨fun _ => none, fun _ => []⟩

/-- An IK model with no solution under the environment-collision filter
but one solution `[0]` when self-collisions are ignored. -/
def ikOne : IKModel := ⟨fun _ => none, fun _ => [[0]]⟩

/-! ### Helper lemmas -/

theorem checkJointLimits_ok (robot : Robot) (q : List ℚ)
    (h : withinJointLimits robot q = true) :
    checkJointLimits robot q = Except.ok () := by
  simp [checkJointLimits, h]

theorem checkJointLimits_err (robot : Robot) (q : List ℚ)
    (h : withinJointLimits robot q = false) :
    checkJointLimits robot q
      = Except.error (PlanningFailure.jointLimitViolation true) := by
  simp [checkJointLimits, h]

theorem checkJointLimits_error_shape (robot : Robot) (q : List ℚ)
    (e : PlanningFailure) (h : checkJointLimits robot q = Except.error e) :
    e = PlanningFailure.jointLimitViolation true := by
  unfold checkJointLimits at h
  split at h
  · exact absurd h (by simp)
  · exact (Except.error.injEq _ _).mp h.symm |>.symm ▸ rfl

theorem snapChecked_state_eq (robot : Robot) (cm : CollisionModel)
    (goal : List ℚ) (res : Nat) (st : EnvState) :
    (snapChecked robot cm goal res st).state = st := by
  unfold snapChecked
  dsimp only
  split
  · rfl
  · rfl

theorem snap_state_eq (robot : Robot) (cm : CollisionModel) (goal : List ℚ)
    (res : Nat) (st : EnvState) : (snap robot cm goal res st).state = st := by
  unfold snap
  split
  · rfl
  · split
    · rfl
    · exact snapChecked_state_eq robot cm goal res st

theorem planToEndEffectorPose_state_eq (robot : Robot) (cm : CollisionModel)
    (ik : IKModel) (pose : Pose) (res : Nat) (st : EnvState) :
    (planToEndEffectorPose robot cm ik pose res st).state = st := by
  unfold planToEndEffectorPose
  split
  · rfl
  · exact snap_state_eq robot cm _ res st

theorem verifyCollisionFree_error_flag (cm : CollisionModel) (q : List ℚ)
    (e : PlanningFailure) (h : verifyCollisionFree cm q = Except.error e) :
    e.deterministicFlag = true := by
  unfold verifyCollisionFree at h
  split at h
  · cases h; rfl
  · split at h
    · cases h; rfl
    · exact absurd h (by simp)

theorem checkLoop_error_flag (cm : CollisionModel) (opts : Nat) :
    ∀ (l : List (ℚ × List ℚ)) (e : PlanningFailure),
      (checkLoop cm opts l).1 = Except.error e → e.deterministicFlag = true := by
  intro l
  induction l with
  | nil => intro e h; exact absurd h (by simp [checkLoop])
  | cons hd tl ih =>
    obtain ⟨t, q⟩ := hd
    intro e h
    cases hv : verifyCollisionFree cm q with
    | error e' =>
      simp only [checkLoop, hv] at h
      cases h
      exact verifyCollisionFree_error_flag cm q _ hv
    | ok u =>
      cases u
      simp only [checkLoop, hv] at h
      exact ih e h

theorem checkLoop_trace_scoped (cm : CollisionModel) :
    ∀ l : List (ℚ × List ℚ),
      collisionChecksScoped (checkLoop cm collisionOptionsActiveDOFs l).2
        = true := by
  intro l
  induction l with
  | nil => rfl
  | cons hd tl ih =>
    obtain ⟨t, q⟩ := hd
    cases hv : verifyCollisionFree cm q with
    | error e' => simp [checkLoop, hv, collisionChecksScoped]
    | ok u =>
      cases u
      simp only [checkLoop, hv]
      simp only [collisionChecksScoped, List.all_cons] at ih ⊢
      simp [ih]

theorem probeIKSolutions_flag (cm : CollisionModel) :
    ∀ qs : List (List ℚ),
      (probeIKSolutions cm qs).deterministicFlag = true := by
  intro qs
  induction qs with
  | nil => rfl
  | cons q rest ih =>
    unfold probeIKSolutions
    split
    · rfl
    · split
      · rfl
      · exact ih

theorem snapChecked_failure_flag (robot : Robot) (cm : CollisionModel)
    (goal : List ℚ) (res : Nat) (st : EnvState) :
    failureDeterministic (snapChecked robot cm goal res st).result = true := by
  unfold snapChecked
  dsimp only
  cases hcl :
      (checkLoop cm collisionOptionsActiveDOFs
        (getLinearCollisionCheckPts robot.activeDOFValues goal
          (snapWaypoints robot.activeDOFValues goal).length res)).1 with
  | error e =>
    exact checkLoop_error_flag cm collisionOptionsActiveDOFs _ e hcl
  | ok u => cases u; rfl

theorem snap_failure_flag (robot : Robot) (cm : CollisionModel)
    (goal : List ℚ) (res : Nat) (st : EnvState) :
    failureDeterministic (snap robot cm goal res st).result = true := by
  unfold snap
  cases hs : checkJointLimits robot robot.activeDOFValues with
  | error e =>
    simp only [failureDeterministic]
    rw [checkJointLimits_error_shape robot _ e hs]
    rfl
  | ok u =>
    cases u
    cases hg : checkJointLimits robot goal with
    | error e =>
      simp only [failureDeterministic]
      rw [checkJointLimits_error_shape robot _ e hg]
      rfl
    | ok u =>
      cases u
      exact snapChecked_failure_flag robot cm goal res st

/-! ### Claim theorems -/

/-- C6: every failure raised by `PlanToConfiguration` and
`PlanToEndEffectorPose` — joint-limit violation, no-IK-solution,
environment collision, and self-collision — carries a deterministic flag
set to `true`. -/
theorem c6_failures_deterministic (robot : Robot) (cm : CollisionModel)
    (ik : IKModel) (pose : Pose) (goal : List ℚ) (res : Nat) (st : EnvState) :
    failureDeterministic (planToConfiguration robot cm goal res st).result
        = true ∧
      failureDeterministic
        (planToEndEffectorPose robot cm ik pose res st).result = true := by
  constructor
  · exact snap_failure_flag robot cm goal res st
  · unfold planToEndEffectorPose
    split
    · exact probeIKSolutions_flag cm _
    · exact snap_failure_flag robot cm _ res st

/-- C7: for every invocation of `_Snap`, every collision check runs with
the collision options set to `ActiveDOFs`, and the collision checker's
options are restored to their previous value on every exit path (success
and failure alike). -/
theorem c7_options_scoped_and_restored (robot : Robot) (cm : CollisionModel)
    (goal : List ℚ) (res : Nat) (st : EnvState) :
    (snap robot cm goal res st).state = st ∧
      collisionChecksScoped (snap robot cm goal res st).trace = true := by
  refine ⟨snap_state_eq robot cm goal res st, ?_⟩
  unfold snap
  cases hs : checkJointLimits robot robot.activeDOFValues with
  | error e => rfl
  | ok u =>
    cases u
    cases hg : checkJointLimits robot goal with
    | error e => rfl
    | ok u =>
      cases u
      unfold snapChecked
      dsimp only
      have hloop := checkLoop_trace_scoped cm
        (getLinearCollisionCheckPts robot.activeDOFValues goal
          (snapWaypoints robot.activeDOFValues goal).length res)
      cases hcl :
          (checkLoop cm collisionOptionsActiveDOFs
            (getLinearCollisionCheckPts robot.activeDOFValues goal
              (snapWaypoints robot.activeDOFValues goal).length res)).1 with
      | error e =>
        simpa [collisionChecksScoped] using hloop
      | ok u =>
        cases u
        simpa [collisionChecksScoped] using hloop

/-- C8: `PlanToConfiguration` and `PlanToEndEffectorPose` are
deterministic: a second invocation with the same robot state, goal and
external-engine answers, run from the state the first invocation left
behind, produces the identical outcome (same result, same state, same
trace). -/
theorem c8_repeat_same_outcome (robot : Robot) (cm : CollisionModel)
    (ik : IKModel) (pose : Pose) (goal : List ℚ) (res : Nat) (st : EnvState) :
    planToConfiguration robot cm goal res
          ((planToConfiguration robot cm goal res st).state)
        = planToConfiguration robot cm goal res st ∧
      planToEndEffectorPose robot cm ik pose res
          ((planToEndEffectorPose robot cm ik pose res st).state)
        = planToEndEffectorPose robot cm ik pose res st := by
  constructor
  · rw [show (planToConfiguration robot cm goal res st).state = st from
      snap_state_eq robot cm goal res st]
  · rw [planToEndEffectorPose_state_eq robot cm ik pose res st]

theorem snapChecked_ok_shape (robot : Robot) (cm : CollisionModel)
    (goal : List ℚ) (res : Nat) (st : EnvState) (traj : Traj)
    (h : (snapChecked robot cm goal res st).result = Except.ok traj) :
    traj = ⟨snapWaypoints robot.activeDOFValues goal,
            [(Tag.smooth, true), (Tag.deterministicTrajectory, true),
             (Tag.deterministicEndpoint, true)]⟩ := by
  unfold snapChecked at h
  dsimp only at h
  revert h
  cases hcl :
      (checkLoop cm collisionOptionsActiveDOFs
        (getLinearCollisionCheckPts robot.activeDOFValues goal
          (snapWaypoints robot.activeDOFValues goal).length res)).1 with
  | error e => intro h; exact absurd h (by simp)
  | ok u =>
    cases u
    intro h
    cases h
    rfl

theorem snap_ok_shape (robot : Robot) (cm : CollisionModel) (goal : List ℚ)
    (res : Nat) (st : EnvState) (traj : Traj)
    (h : (snap robot cm goal res st).result = Except.ok traj) :
    traj = ⟨snapWaypoints robot.activeDOFValues goal,
            [(Tag.smooth, true), (Tag.deterministicTrajectory, true),
             (Tag.deterministicEndpoint, true)]⟩ := by
  unfold snap at h
  revert h
  cases hs : checkJointLimits robot robot.activeDOFValues with
  | error e => intro h; exact absurd h (by simp)
  | ok u =>
    cases u
    cases hg : checkJointLimits robot goal with
    | error e => intro h; exact absurd h (by simp)
    | ok u =>
      cases u
      intro h
      exact snapChecked_ok_shape robot cm goal res st traj h

/-- C1: for every invocation of `PlanToConfiguration` (and of `_Snap`)
with a goal configuration violating joint limits, the call fails with the
joint-limit violation error and no collision check is performed: both
endpoints are validated against joint limits before the collision-check
loop runs. -/
theorem c1_goal_limit_fails_before_collision (robot : Robot)
    (cm : CollisionModel) (goal : List ℚ) (res : Nat) (st : EnvState)
    (h : withinJointLimits robot goal = false) :
    (planToConfiguration robot cm goal res st).result
        = Except.error (PlanningFailure.jointLimitViolation true) ∧
      noCollisionCheck (planToConfiguration robot cm goal res st).trace
        = true ∧
      (snap robot cm goal res st).result
        = Except.error (PlanningFailure.jointLimitViolation true) ∧
      noCollisionCheck (snap robot cm goal res st).trace = true := by
  have hg := checkJointLimits_err robot goal h
  have key : (snap robot cm goal res st).result
      = Except.error (PlanningFailure.jointLimitViolation true) ∧
      noCollisionCheck (snap robot cm goal res st).trace = true := by
    unfold snap
    cases hs : checkJointLimits robot robot.activeDOFValues with
    | error e =>
      rw [checkJointLimits_error_shape robot _ e hs]
      exact ⟨rfl, rfl⟩
    | ok u =>
      cases u
      rw [hg]
      exact ⟨rfl, rfl⟩
  exact ⟨key.1, key.2, key.1, key.2⟩

/-- Witness for C1: on the one-DOF robot with limits `[-10, 10]`, the
goal `[20]` violates joint limits and the call fails with the
joint-limit violation error. -/
theorem c1_goal_limit_fails_before_collision_witness :
    withinJointLimits robotW [(20 : ℚ)] = false ∧
      (planToConfiguration robotW cmFree [(20 : ℚ)] 0 stW).result
        = Except.error (PlanningFailure.jointLimitViolation true) :=
  ⟨by norm_num [withinJointLimits, robotW],
   (c1_goal_limit_fails_before_collision robotW cmFree [(20 : ℚ)] 0 stW
     (by norm_num [withinJointLimits, robotW])).1⟩

/-- C2: every trajectory returned by `_Snap` has at most two waypoints:
exactly the start waypoint when the goal is `numpy.allclose` to the
start, and exactly start-then-goal otherwise. -/
theorem c2_waypoint_count (robot : Robot) (cm : CollisionModel)
    (goal : List ℚ) (res : Nat) (st : EnvState) (traj : Traj)
    (h : (snap robot cm goal res st).result = Except.ok traj) :
    traj.waypoints.length ≤ 2 ∧
      (allclose robot.activeDOFValues goal = true →
        traj.waypoints = [robot.activeDOFValues]) ∧
      (allclose robot.activeDOFValues goal = false →
        traj.waypoints = [robot.activeDOFValues, goal]) := by
  have hshape := snap_ok_shape robot cm goal res st traj h
  subst hshape
  unfold snapWaypoints
  cases hc : allclose robot.activeDOFValues goal with
  | true => simp [hc]
  | false => simp [hc]

/-- Witness for C2: on the one-DOF robot, goal `[1]` is not allclose to
the start `[0]` and the returned trajectory has the two waypoints start
then goal. -/
theorem c2_waypoint_count_witness :
    (snap robotW cmFree [(1 : ℚ)] 0 stW).result = Except.ok trajW ∧
      allclose robotW.activeDOFValues [(1 : ℚ)] = false ∧
      trajW.waypoints = [robotW.activeDOFValues, [(1 : ℚ)]] :=
  ⟨by norm_num [snap, snapChecked, snapWaypoints, checkJointLimits,
      withinJointLimits, allclose, getLinearCollisionCheckPts, lerp,
      checkLoop, verifyCollisionFree, robotW, cmFree, stW, trajW],
   by norm_num [allclose, robotW],
   (c2_waypoint_count robotW cmFree [(1 : ℚ)] 0 stW trajW
       (by norm_num [snap, snapChecked, snapWaypoints, checkJointLimits,
         withinJointLimits, allclose, getLinearCollisionCheckPts, lerp,
         checkLoop, verifyCollisionFree, robotW, cmFree, stW, trajW])).2.2
     (by norm_num [allclose, robotW])⟩

/-- C5: every trajectory returned by `_Snap` is tagged `SMOOTH = true`,
`DETERMINISTIC_TRAJECTORY = true` and `DETERMINISTIC_ENDPOINT = true`. -/
theorem c5_success_tags (robot : Robot) (cm : CollisionModel)
    (goal : List ℚ) (res : Nat) (st : EnvState) (traj : Traj)
    (h : (snap robot cm goal res st).result = Except.ok traj) :
    traj.tags = [(Tag.smooth, true), (Tag.deterministicTrajectory, true),
                 (Tag.deterministicEndpoint, true)] := by
  have hshape := snap_ok_shape robot cm goal res st traj h
  subst hshape
  rfl

/-- Witness for C5: the concrete successful snap on the one-DOF robot
returns a trajectory carrying the three tags. -/
theorem c5_success_tags_witness :
    (snap robotW cmFree [(2 : ℚ)] 0 stW).result
        = Except.ok ⟨[[0], [2]], trajW.tags⟩ ∧
      (⟨[[0], [2]], trajW.tags⟩ : Traj).tags
        = [(Tag.smooth, true), (Tag.deterministicTrajectory, true),
           (Tag.deterministicEndpoint, true)] :=
  ⟨by norm_num [snap, snapChecked, snapWaypoints, checkJointLimits,
      withinJointLimits, allclose, getLinearCollisionCheckPts, lerp,
      checkLoop, verifyCollisionFree, robotW, cmFree, stW, trajW],
   c5_success_tags robotW cmFree [(2 : ℚ)] 0 stW ⟨[[0], [2]], trajW.tags⟩
     (by norm_num [snap, snapChecked, snapWaypoints, checkJointLimits,
       withinJointLimits, allclose, getLinearCollisionCheckPts, lerp,
       checkLoop, verifyCollisionFree, robotW, cmFree, stW, trajW])⟩

theorem probeIKSolutions_spec (cm : CollisionModel) :
    ∀ qs : List (List ℚ),
      probeIKSolutions cm qs =
        match qs.find? (fun q => cm.envCollision q || cm.selfCollision q) with
        | some q =>
          if cm.envCollision q then PlanningFailure.collision q true
          else PlanningFailure.selfCollision q true
        | none => PlanningFailure.planningError noIKSolutionMessage true := by
  intro qs
  induction qs with
  | nil => rfl
  | cons q rest ih =>
    cases he : cm.envCollision q with
    | true => simp [probeIKSolutions, List.find?, he]
    | false =>
      cases hs : cm.selfCollision q with
      | true => simp [probeIKSolutions, List.find?, he, hs]
      | false => simpa [probeIKSolutions, List.find?, he, hs] using ih

/-- C3: when the environment-collision-filtered IK query returns no
solution, the ignore-self-collisions query returns at least one
solution, and every such solution is in self-collision while none is in
environment collision, `PlanToEndEffectorPose` fails with a
`SelfCollisionPlanningError` (reporting one of those solutions), not a
generic `PlanningError`. -/
theorem c3_self_collision_error (robot : Robot) (cm : CollisionModel)
    (ik : IKModel) (pose : Pose) (res : Nat) (st : EnvState)
    (hnone : ik.findIKSolution pose = none)
    (hne : ik.findIKSolutions pose ≠ [])
    (henv : ∀ q ∈ ik.findIKSolutions pose, cm.envCollision q = false)
    (hself : ∀ q ∈ ik.findIKSolutions pose, cm.selfCollision q = true) :
    ∃ q ∈ ik.findIKSolutions pose,
      (planToEndEffectorPose robot cm ik pose res st).result
        = Except.error (PlanningFailure.selfCollision q true) := by
  unfold planToEndEffectorPose
  rw [hnone]
  dsimp only
  cases hqs : ik.findIKSolutions pose with
  | nil => exact absurd hqs hne
  | cons q rest =>
    have he := henv q (by rw [hqs]; exact List.mem_cons_self q rest)
    have hs := hself q (by rw [hqs]; exact List.mem_cons_self q rest)
    exact ⟨q, List.mem_cons_self q rest,
      by simp [probeIKSolutions, he, hs]⟩

/-- Witness for C3: one IK solution `[0]` found while ignoring
self-collisions, in self-collision only; the failure is the
self-collision error. -/
theorem c3_self_collision_error_witness :
    (planToEndEffectorPose robotW cmSelfAll ikOne 0 0 stW).result
      = Except.error (PlanningFailure.selfCollision [(0 : ℚ)] true) := by
  obtain ⟨q, hq, hres⟩ :=
    c3_self_collision_error robotW cmSelfAll ikOne 0 0 stW rfl
      (by simp [ikOne]) (by simp [ikOne, cmSelfAll])
      (by simp [ikOne, cmSelfAll])
  simp only [ikOne, List.mem_singleton] at hq
  subst hq
  exact hres

/-- C4: when the environment-collision-filtered IK query returns no
solution and the ignore-self-collisions query returns the empty solution
set, `PlanToEndEffectorPose` fails with the generic `PlanningError`
stating there is no IK solution at the goal pose. -/
theorem c4_no_ik_solution (robot : Robot) (cm : CollisionModel)
    (ik : IKModel) (pose : Pose) (res : Nat) (st : EnvState)
    (hnone : ik.findIKSolution pose = none)
    (hempty : ik.findIKSolutions pose = []) :
    (planToEndEffectorPose robot cm ik pose res st).result
      = Except.error
          (PlanningFailure.planningError noIKSolutionMessage true) := by
  unfold planToEndEffectorPose
  rw [hnone]
  dsimp only
  rw [hempty]
  rfl

/-- Witness for C4: the IK model with no solution under either filter
yields the no-IK-solution `PlanningError`. -/
theorem c4_no_ik_solution_witness :
    (planToEndEffectorPose robotW cmFree ikNone 0 0 stW).result
      = Except.error
          (PlanningFailure.planningError noIKSolutionMessage true) :=
  c4_no_ik_solution robotW cmFree ikNone 0 0 stW rfl rfl

/-- C9: in the diagnostic probe of `PlanToEndEffectorPose`, the failure
reports the first colliding IK solution in enumeration order, and the
environment-collision check runs first: a solution in both environment
and self collision yields `CollisionPlanningError`, never
`SelfCollisionPlanningError`. -/
theorem c9_probe_env_priority (robot : Robot) (cm : CollisionModel)
    (ik : IKModel) (pose : Pose) (res : Nat) (st : EnvState)
    (hnone : ik.findIKSolution pose = none) :
    (planToEndEffectorPose robot cm ik pose res st).result =
      Except.error
        (match (ik.findIKSolutions pose).find?
            (fun q => cm.envCollision q || cm.selfCollision q) with
         | some q =>
           if cm.envCollision q then PlanningFailure.collision q true
           else PlanningFailure.selfCollision q true
         | none =>
           PlanningFailure.planningError noIKSolutionMessage true) := by
  unfold planToEndEffectorPose
  rw [hnone]
  dsimp only
  rw [probeIKSolutions_spec]

/-- Witness for C9: the single probed solution `[0]` is in both
environment and self collision; the failure is the environment-collision
error, not the self-collision one. -/
theorem c9_probe_env_priority_witness :
    (planToEndEffectorPose robotW cmBothAll ikOne 0 0 stW).result
      = Except.error (PlanningFailure.collision [(0 : ℚ)] true) := by
  have h := c9_probe_env_priority robotW cmBothAll ikOne 0 0 stW rfl
  simpa [ikOne, cmBothAll, List.find?] using h

/-- C10: even when the goal is `numpy.allclose` to the start (a
single-waypoint trajectory), the start configuration is still collision
checked: if the start is in environment collision, `_Snap` fails with
the collision error rather than trivially succeeding. -/
theorem c10_start_collision_checked (robot : Robot) (cm : CollisionModel)
    (goal : List ℚ) (res : Nat) (st : EnvState)
    (hs : withinJointLimits robot robot.activeDOFValues = true)
    (hg : withinJointLimits robot goal = true)
    (hc : allclose robot.activeDOFValues goal = true)
    (he : cm.envCollision robot.activeDOFValues = true) :
    (snap robot cm goal res st).result
      = Except.error
          (PlanningFailure.collision robot.activeDOFValues true) := by
  unfold snap
  rw [checkJointLimits_ok robot _ hs, checkJointLimits_ok robot goal hg]
  dsimp only
  unfold snapChecked
  dsimp only
  simp [snapWaypoints, hc, getLinearCollisionCheckPts, checkLoop,
    verifyCollisionFree, he]

/-- Witness for C10: goal equal to the start `[0]`, start in environment
collision; the call fails with the collision error at the start. -/
theorem c10_start_collision_checked_witness :
    allclose robotW.activeDOFValues [(0 : ℚ)] = true ∧
      (snap robotW cmEnvAll [(0 : ℚ)] 0 stW).result
        = Except.error
            (PlanningFailure.collision robotW.activeDOFValues true) :=
  ⟨by norm_num [allclose, robotW],
   c10_start_collision_checked robotW cmEnvAll [(0 : ℚ)] 0 stW
     (by norm_num [withinJointLimits, robotW])
     (by norm_num [withinJointLimits, robotW])
     (by norm_num [allclose, robotW]) rfl⟩

end SnapPlannerModel
